import Mathlib

/-!
Verification of the authentication core of the `test-auth` backend
(`src/app/core/security.py`, `src/app/core/config.py`,
`src/app/core/auth/...`, `src/app/api/v1/users.py`) against its
natural-language specification.

The Python source is shallowly embedded: dictionaries become association
lists, JWT tokens become an explicit inductive (the external `jose` JWT
library is modelled per the spec: a signed token validates only under the
signing key, fails when malformed, and fails once `now >= exp`), Fernet
ciphertexts become an explicit inductive, database sessions become lists
of user records, and raised exceptions become `Except` errors.
-/

/-- JSON-ish values carried in JWT payloads (the Python code only ever
stores strings, ints and `None` in these dictionaries). -/
inductive JValue where
  | s (v : String)
  | i (v : Int)
  | null
deriving DecidableEq, Repr

/-- A JWT payload: a Python dict, embedded as an association list whose
keys come in insertion order (Python dict semantics). -/
abbrev Claims := List (String × JValue)

/-- Python `dict.get(k)`: first binding of `k`, if any. -/
def dictGet : Claims → String → Option JValue
  | [], _ => none
  | (k2, v) :: rest, k => if k2 = k then some v else dictGet rest k

/-- Python `dict.update({k: v})`: replace the binding of `k` in place if
present, else append a new binding at the end. -/
def dictSet : Claims → String → JValue → Claims
  | [], k, v => [(k, v)]
  | (k2, v2) :: rest, k, v =>
    if k2 = k then (k, v) :: rest else (k2, v2) :: dictSet rest k v

/-- Python truthiness for payload values: `None`, `""` and `0` are falsy. -/
def jvTruthy : JValue → Bool
  | JValue.s v => v ≠ ""
  | JValue.i v => v ≠ 0
  | JValue.null => false

/-- Python `==` between a payload value and an `Optional[str]` setting:
only a string value can equal a configured string. -/
def jvEqOptStr : JValue → Option String → Bool
  | JValue.s v, some t => v = t
  | _, _ => false

/-- The string carried by a payload value (defined only on the branches
where the code has already established the value is a string). -/
def jvStr : JValue → String
  | JValue.s v => v
  | JValue.i _ => ""
  | JValue.null => ""

/-- Python truthiness of an `Optional[str]`: `None` and `""` are falsy. -/
def optStrTruthy : Option String → Bool
  | some v => v ≠ ""
  | none => false

/-- Python `f"{x}"` rendering of an `Optional[str]`. -/
def optStrRepr : Option String → String
  | some v => v
  | none => "None"

/-- A JWT as handed around by the code: either a well-formed token signed
under a key (the HMAC is abstracted into the key it was produced with) or
a malformed string. -/
inductive Jwt where
  | signed (payload : Claims) (key : String)
  | malformed (raw : String)
deriving DecidableEq, Repr

/-- Payload of a token (used only to state properties). -/
def jwtPayload : Jwt → Claims
  | Jwt.signed p _ => p
  | Jwt.malformed _ => []

/-- The external JWT library's `jwt.decode(token, key, algorithms)`,
modelled per the spec's description of the Token Codec: fails on a bad
signature, on a malformed structure, and on `now >= exp`; a non-numeric
`exp` claim also fails. -/
def jwtDecode : Jwt → String → Nat → Option Claims
  | Jwt.malformed _, _, _ => none
  | Jwt.signed payload k, key, now =>
    if k = key then
      match dictGet payload "exp" with
      | some (JValue.i e) => if e ≤ (now : Int) then none else some payload
      | some _ => none
      | none => some payload
    else none

/-- `create_access_token` from `src/app/core/security.py`: copies the
claim dict and sets `exp = now + expires_delta`, falling back to the
configured default minutes when `expires_delta` is absent or zero
(Python `if expires_delta:` is false for a zero timedelta). `now` is the
current UTC time and `expires_delta` a timedelta, both in seconds. -/
def create_access_token (data : Claims) (expires_delta : Option Nat)
    (key : String) (now : Nat) (default_minutes : Nat) : Jwt :=
  let expire : Nat :=
    match expires_delta with
    | some d => if d = 0 then now + default_minutes * 60 else now + d
    | none => now + default_minutes * 60
  Jwt.signed (dictSet data "exp" (JValue.i (expire : Int))) key

/-- `decode_access_token` from `src/app/core/security.py`: decodes under
the process secret key; a `JWTError` becomes `ValueError("Invalid token")`,
embedded as `none`. -/
def decode_access_token (token : Jwt) (key : String) (now : Nat) : Option Claims :=
  jwtDecode token key now

/-- A Fernet ciphertext at rest, as stored in the `github_token` column:
the empty string, a well-formed ciphertext carrying the key it was sealed
under together with its plaintext, or a non-empty undecryptable blob
(bad base64, corrupted data). -/
inductive Sealed where
  | empty
  | cipher (key : Nat) (plain : String)
  | garbage (raw : String)
deriving DecidableEq, Repr

/-- Python truthiness of the stored ciphertext string (`.empty` is `""`;
`.garbage` stands for a non-empty undecryptable string). -/
def sealedTruthy : Sealed → Bool
  | Sealed.empty => false
  | Sealed.cipher _ _ => true
  | Sealed.garbage _ => true

/-- `encrypt_token` from `src/app/core/security.py`: the empty string is
returned as is, anything else is Fernet-encrypted under the process key. -/
def encrypt_token (fkey : Nat) (token : String) : Sealed :=
  if token = "" then Sealed.empty else Sealed.cipher fkey token

/-- `decrypt_token` from `src/app/core/security.py`: the empty string
yields `""`; decryption under the matching key recovers the plaintext;
every failure (undecryptable blob, wrong key) is caught and yields `""`.
The function is total: no exception escapes. -/
def decrypt_token (fkey : Nat) : Sealed → String
  | Sealed.empty => ""
  | Sealed.cipher k p => if k = fkey then p else ""
  | Sealed.garbage _ => ""

/-- GitHub user data as passed to `create_github_oauth_token`
(the dict built in the OAuth callback of `src/app/api/v1/auth.py`). -/
structure GitHubUserData where
  login : String
  id : Int
  email : Option String
  avatar_url : Option String
deriving DecidableEq, Repr

/-- An `Optional[str]` embedded as a payload value. -/
def optJ : Option String → JValue
  | some v => JValue.s v
  | none => JValue.null

/-- `create_github_oauth_token` from `src/app/core/security.py`: builds
the session-token claim dict and issues it via `create_access_token`
with the default expiry. -/
def create_github_oauth_token (u : GitHubUserData) (access_token : String)
    (key : String) (now : Nat) (default_minutes : Nat) : Jwt :=
  let token_data : Claims :=
    [("sub", JValue.s u.login),
     ("github_id", JValue.i u.id),
     ("email", optJ u.email),
     ("avatar_url", optJ u.avatar_url),
     ("github_token", JValue.s access_token),
     ("type", JValue.s "github_oauth")]
  create_access_token token_data none key now default_minutes

/-- The `Settings` model of `src/app/core/config.py`. `app_mode` is the
underlying string of the `AppMode` str-enum (`"single_user"` or
`"multi_user"`); defaults mirror the field defaults of the source. -/
structure Settings where
  app_mode : String := "single_user"
  secret_key : String := "your-secret-key-change-this-in-production"
  access_token_expire_minutes : Nat := 30
  github_client_id : Option String := none
  github_client_secret : Option String := none
  enable_su_auth : Bool := false
  su_github_username : Option String := none
  default_github_token : Option String := none
  mu_admin_github_username : Option String := none
deriving DecidableEq, Repr

/-- Pydantic validation of `Settings` (`src/app/core/config.py`):
field validators run in field-declaration order, and `info.data` holds
only the fields already validated. The declaration order is
`app_mode, ..., github_client_id, github_client_secret, ...,
enable_su_auth, su_github_username, default_github_token,
mu_admin_github_username`, so when `validate_github_oauth` runs for the
client id and secret, `enable_su_auth` is not yet in `info.data` and
`info.data.get('enable_su_auth', False)` yields `False`. -/
def validateSettings (s : Settings) : Except String Settings :=
  if s.app_mode ≠ "single_user" ∧ s.app_mode ≠ "multi_user" then
    Except.error ("invalid app_mode: " ++ s.app_mode)
  else
    let enable_su_auth_seen := false
    if (s.app_mode = "multi_user" ∨ enable_su_auth_seen = true) ∧
        ¬ optStrTruthy s.github_client_id then
      Except.error "GitHub OAuth credentials required"
    else if (s.app_mode = "multi_user" ∨ enable_su_auth_seen = true) ∧
        ¬ optStrTruthy s.github_client_secret then
      Except.error "GitHub OAuth credentials required"
    else if s.enable_su_auth ∧ ¬ optStrTruthy s.su_github_username then
      Except.error "SU GitHub username required when SU auth is enabled"
    else if s.app_mode = "multi_user" ∧ ¬ optStrTruthy s.mu_admin_github_username then
      Except.error "MU admin GitHub username required for multi-user mode"
    else
      Except.ok s

/-- The `requires_auth` property of `Settings`. -/
def Settings.requiresAuth (s : Settings) : Bool :=
  s.app_mode = "multi_user" ∨ (s.app_mode = "single_user" ∧ s.enable_su_auth)

/-- The parts of an inbound HTTP request the authentication core reads. -/
structure Request where
  authorization : Option String := none
  cookie_access_token : Option String := none
  x_github_token : Option String := none
deriving DecidableEq, Repr

/-- Python `s.split(" ")` on the underlying characters. -/
def splitCharsOnSpace : List Char → List (List Char)
  | [] => [[]]
  | c :: rest =>
    let r := splitCharsOnSpace rest
    if c = ' ' then [] :: r
    else
      match r with
      | f :: others => (c :: f) :: others
      | [] => [[c]]

/-- Python `s.split(" ")`. -/
def pySplitSpace (s : String) : List String :=
  (splitCharsOnSpace s.data).map (fun l => String.mk l)

/-- Whether the first list is an initial segment of the second. -/
def leadChars : List Char → List Char → Bool
  | [], _ => true
  | _ :: _, [] => false
  | a :: as, b :: bs => a = b ∧ leadChars as bs

/-- Python `s.startswith(pre)`. -/
def pyStartsWith (s pre : String) : Bool :=
  leadChars pre.data s.data

/-- Bearer-token extraction shared verbatim by both OAuth strategies
(`github_su.py` / `github_mu.py`): take `Authorization: Bearer <tok>`
(Python `auth_header.split(" ")[1]`), falling back to the
`access_token` cookie; empty strings are falsy at every step. -/
def extractToken (req : Request) : Option String :=
  let tokenHeader : Option String :=
    match req.authorization with
    | some h =>
      if h ≠ "" ∧ pyStartsWith h "Bearer " then (pySplitSpace h).get? 1
      else none
    | none => none
  let token := if optStrTruthy tokenHeader then tokenHeader
    else req.cookie_access_token
  if optStrTruthy token then token else none

/-- The `User` row of `src/app/models/user.py` (the columns the
authentication core touches). Timestamps are UTC seconds. -/
structure UserRec where
  id : Nat
  username : String
  email : Option String := none
  github_username : Option String := none
  github_id : Option JValue := none
  github_avatar_url : Option String := none
  github_token : Option Sealed := none
  is_admin : Bool := false
  is_active : Bool := true
  created_at : Option Nat := none
  updated_at : Option Nat := none
  last_login : Option Nat := none
deriving DecidableEq, Repr

/-- The id SQLite assigns to a freshly inserted row. -/
def nextId (db : List UserRec) : Nat := db.length + 1

/-- An HTTP-visible error (`HTTPException status detail`) or an internal
Python exception (`ValueError` and the like). -/
inductive HttpError where
  | http (status : Nat) (detail : String)
  | exc (msg : String)
deriving DecidableEq, Repr

/-- Body of `GitHubSUStrategy.authenticate` (`github_su.py`) with the
`try` block made explicit: every raised exception becomes an
`Except.error`. `wire` is the deserialization of token strings into JWT
values (the compact-serialization parse done by the JWT library);
`now` is the current UTC time in seconds. -/
def suAuthenticateInner (cfg : Settings) (wire : String → Jwt)
    (db : List UserRec) (req : Request) (now : Nat) :
    Except HttpError (Option UserRec × List UserRec) :=
  match extractToken req with
  | none => Except.ok (none, db)
  | some tokenStr =>
    match decode_access_token (wire tokenStr) cfg.secret_key now with
    | none => Except.error (HttpError.exc "Invalid token")
    | some payload =>
      match dictGet payload "sub" with
      | none => Except.ok (none, db)
      | some username =>
        if ¬ jvTruthy username then Except.ok (none, db)
        else if ¬ jvEqOptStr username cfg.su_github_username then
          Except.error (HttpError.http 403
            ("Access denied. Only " ++ optStrRepr cfg.su_github_username
              ++ " is allowed."))
        else
          let uname := jvStr username
          match db.find? (fun u => u.github_username == some uname) with
          | some user => Except.ok (some user, db)
          | none =>
            let newUser : UserRec :=
              { id := nextId db, username := uname,
                github_username := some uname,
                is_admin := true, is_active := true }
            Except.ok (some newUser, db ++ [newUser])

/-- `GitHubSUStrategy.authenticate`: the bare `except Exception: return
None` catches every exception — `HTTPException` derives from `Exception`,
so the explicit 403 raised for a disallowed subject is swallowed too. -/
def suAuthenticate (cfg : Settings) (wire : String → Jwt)
    (db : List UserRec) (req : Request) (now : Nat) :
    Option UserRec × List UserRec :=
  match suAuthenticateInner cfg wire db req now with
  | Except.ok r => r
  | Except.error _ => (none, db)

/-- Body of `GitHubMUStrategy.authenticate` (`github_mu.py`) with the
`try` block made explicit. A missing user is auto-provisioned with
`is_admin = (subject == configured admin username)`; the `is_active`
check then runs on the found-or-created record. On the error branch the
database is always the input one: only the found-user path can error and
it performs no write. -/
def muAuthenticateInner (cfg : Settings) (wire : String → Jwt)
    (db : List UserRec) (req : Request) (now : Nat) :
    Except HttpError (Option UserRec × List UserRec) :=
  match extractToken req with
  | none => Except.ok (none, db)
  | some tokenStr =>
    match decode_access_token (wire tokenStr) cfg.secret_key now with
    | none => Except.error (HttpError.exc "Invalid token")
    | some payload =>
      let github_id := dictGet payload "github_id"
      match dictGet payload "sub" with
      | none => Except.ok (none, db)
      | some username =>
        if ¬ jvTruthy username then Except.ok (none, db)
        else
          let found := db.find? (fun u => jvEqOptStr username u.github_username)
          let userAndDb : UserRec × List UserRec :=
            match found with
            | some u => (u, db)
            | none =>
              let newUser : UserRec :=
                { id := nextId db, username := jvStr username,
                  github_username := some (jvStr username),
                  github_id := github_id,
                  is_admin := jvEqOptStr username cfg.mu_admin_github_username,
                  is_active := true }
              (newUser, db ++ [newUser])
          if userAndDb.1.is_active = false then
            Except.error (HttpError.http 403
              "Account is deactivated. Contact administrator.")
          else
            Except.ok (some userAndDb.1, userAndDb.2)

/-- `GitHubMUStrategy.authenticate`: `except HTTPException: raise`
re-raises HTTP errors (so the deactivated-account 403 propagates), while
the following `except Exception: return None` absorbs everything else. -/
def muAuthenticate (cfg : Settings) (wire : String → Jwt)
    (db : List UserRec) (req : Request) (now : Nat) :
    Except HttpError (Option UserRec × List UserRec) :=
  match muAuthenticateInner cfg wire db req now with
  | Except.ok r => Except.ok r
  | Except.error (HttpError.http st d) => Except.error (HttpError.http st d)
  | Except.error (HttpError.exc _) => Except.ok (none, db)

/-- `NoAuthStrategy.authenticate` (`no_auth.py`): a virtual admin user,
built without any database access (the function does not even receive a
session). -/
def noAuthAuthenticate (_req : Request) (now : Nat) : Option UserRec :=
  some { id := 1, username := "single_user", email := some "user@localhost",
         github_username := none, github_id := none,
         is_admin := true, is_active := true,
         created_at := some now, updated_at := some now, last_login := none }

/-- `NoAuthStrategy.get_login_url`. -/
def noAuthGetLoginUrl : Option String := none

/-- `NoAuthStrategy.requires_auth`. -/
def noAuthRequiresAuth : Bool := false

/-- The three strategy classes. -/
inductive StrategyKind where
  | noAuth
  | githubSU
  | githubMU
deriving DecidableEq, Repr

/-- `get_auth_strategy` (`dependencies.py`): selection keyed on the mode
string (the `AppMode` str-enum compares equal to its underlying string);
the trailing `else` raises `ValueError`. -/
def get_auth_strategy (app_mode : String) (enable_su_auth : Bool) :
    Except String StrategyKind :=
  if app_mode = "single_user" then
    if enable_su_auth then Except.ok StrategyKind.githubSU
    else Except.ok StrategyKind.noAuth
  else if app_mode = "multi_user" then Except.ok StrategyKind.githubMU
  else Except.error ("Unknown app mode: " ++ app_mode)

/-- The first branch of `get_github_token` (`dependencies.py`):
single-user mode, auth disabled, and a truthy default token configured. -/
def suDefaultBranch (cfg : Settings) : Bool :=
  cfg.app_mode = "single_user" ∧ cfg.enable_su_auth = false ∧
    optStrTruthy cfg.default_github_token

/-- The header fallback of `get_github_token`: the `X-GitHub-Token`
request header if truthy, else `None`. -/
def headerToken (req : Request) : Option String :=
  match req.x_github_token with
  | some h => if h ≠ "" then some h else none
  | none => none

/-- Python truthiness of `current_user and current_user.github_token`. -/
def userTokenTruthy : Option UserRec → Bool
  | some u =>
    match u.github_token with
    | some c => sealedTruthy c
    | none => false
  | none => false

/-- `get_github_token` (`dependencies.py`): default token in no-auth
single-user mode, else the decryption of the authenticated user's stored
token (returned as is, even when decryption yields `""`), else the
`X-GitHub-Token` header, else `None`. -/
def get_github_token (cfg : Settings) (fkey : Nat) (req : Request)
    (current_user : Option UserRec) : Option String :=
  if suDefaultBranch cfg then cfg.default_github_token
  else
    match current_user with
    | some u =>
      match u.github_token with
      | some c =>
        if sealedTruthy c then some (decrypt_token fkey c)
        else headerToken req
      | none => headerToken req
    | none => headerToken req

/-- `deactivate_user` (`src/app/api/v1/users.py`), after its
`require_mu_mode` and `require_admin` dependencies have passed: returns
the response or the raised `HTTPException`, paired with the database
state after the call. -/
def deactivate_user (user_id : Nat) (current_user : UserRec)
    (db : List UserRec) (now : Nat) :
    Except HttpError String × List UserRec :=
  if current_user.id = user_id then
    (Except.error (HttpError.http 400 "Cannot deactivate your own account"), db)
  else
    match db.find? (fun u => u.id == user_id) with
    | none => (Except.error (HttpError.http 404 "User not found"), db)
    | some u =>
      let db2 := db.map (fun x =>
        if x.id = user_id then { x with is_active := false, updated_at := some now }
        else x)
      (Except.ok ("User " ++ u.username ++ " deactivated successfully"), db2)

/-- `remove_admin` (`src/app/api/v1/users.py`), after its dependencies
have passed. -/
def remove_admin (user_id : Nat) (current_user : UserRec)
    (db : List UserRec) (now : Nat) :
    Except HttpError String × List UserRec :=
  if current_user.id = user_id then
    (Except.error (HttpError.http 400
      "Cannot remove admin privileges from your own account"), db)
  else
    match db.find? (fun u => u.id == user_id) with
    | none => (Except.error (HttpError.http 404 "User not found"), db)
    | some u =>
      if u.is_admin = false then
        (Except.error (HttpError.http 400 "User is not an admin"), db)
      else
        let db2 := db.map (fun x =>
          if x.id = user_id then { x with is_admin := false, updated_at := some now }
          else x)
        (Except.ok ("Admin privileges removed from user " ++ u.username), db2)

/-- Single-user configuration with auth enabled and `alice` allowed. -/
def cfgSuAuth : Settings :=
  { app_mode := "single_user", enable_su_auth := true,
    su_github_username := some "alice",
    github_client_id := some "cid", github_client_secret := some "sec" }

/-- Wire model mapping every token string to a validly signed session
token for `mallory` (who is not the allowed single user). -/
def wireMallory : String → Jwt := fun _ =>
  Jwt.signed [("sub", JValue.s "mallory"), ("exp", JValue.i 1000)]
    "your-secret-key-change-this-in-production"

/-- A request with a bearer session token. -/
def reqBearer : Request := { authorization := some "Bearer sess-token" }

/-- Multi-user configuration with admin `alice`. -/
def cfgMu : Settings :=
  { app_mode := "multi_user", mu_admin_github_username := some "alice",
    github_client_id := some "cid", github_client_secret := some "sec" }

/-- Wire model mapping every token string to a validly signed session
token for `bob`. -/
def wireBob : String → Jwt := fun _ =>
  Jwt.signed [("sub", JValue.s "bob"), ("exp", JValue.i 1000)]
    "your-secret-key-change-this-in-production"

/-- A deactivated `bob` user record. -/
def userBobInactive : UserRec :=
  { id := 1, username := "bob", github_username := some "bob",
    is_active := false }

/-- Single-user configuration with auth enabled but no OAuth client
credentials configured. -/
def cfgSuAuthNoOauth : Settings :=
  { app_mode := "single_user", enable_su_auth := true,
    su_github_username := some "alice" }

/-- GitHub user data as returned from the OAuth callback. -/
def ghUserAlice : GitHubUserData :=
  { login := "alice", id := 7, email := some "alice@example.com",
    avatar_url := none }

/-- A request carrying only an `X-GitHub-Token` header. -/
def reqHeaderTok : Request := { x_github_token := some "hdr-tok" }

/-- A user whose stored credential decrypts under key `0`. -/
def userStoredTok : UserRec :=
  { id := 1, username := "bob", github_username := some "bob",
    github_token := some (Sealed.cipher 0 "stored-tok") }

/-- A user whose stored credential is corrupted (decryption yields ""). -/
def userGarbageTok : UserRec :=
  { id := 2, username := "eve", github_username := some "eve",
    github_token := some (Sealed.garbage "corrupted") }

/-- An admin record used to exercise the self-targeting guards. -/
def adminSelf : UserRec :=
  { id := 5, username := "root", is_admin := true }

theorem dictGet_dictSet_self (d : Claims) (k : String) (v : JValue) :
    dictGet (dictSet d k v) k = some v := by
  induction d with
  | nil => simp [dictSet, dictGet]
  | cons hd tl ih =>
    obtain ⟨k2, v2⟩ := hd
    by_cases h : k2 = k
    · simp [dictSet, dictGet, h]
    · simp [dictSet, dictGet, h, ih]

theorem dictGet_dictSet_ne (d : Claims) (k k2 : String) (v : JValue)
    (h : k2 ≠ k) : dictGet (dictSet d k v) k2 = dictGet d k2 := by
  induction d with
  | nil => simp [dictSet, dictGet, Ne.symm h]
  | cons hd tl ih =>
    obtain ⟨k3, v3⟩ := hd
    by_cases h3 : k3 = k
    · subst h3
      simp [dictSet, dictGet, Ne.symm h]
    · simp [dictSet, dictGet, h3, ih]

/-- C5: for every non-empty string, decrypting its encryption under the
same stable key recovers it; decrypting the empty string yields the empty
string; and every undecryptable input (corrupted blob, wrong key) yields
the empty string — `decrypt_token` is total, so no exception escapes. -/
theorem credential_vault_roundtrip (fkey : Nat) (x : String) (hx : x ≠ "") :
    decrypt_token fkey (encrypt_token fkey x) = x ∧
    decrypt_token fkey Sealed.empty = "" ∧
    (∀ g, decrypt_token fkey (Sealed.garbage g) = "") ∧
    (∀ k p, k ≠ fkey → decrypt_token fkey (Sealed.cipher k p) = "") := by
  refine ⟨?_, rfl, fun g => rfl, fun k p hk => ?_⟩
  · simp [encrypt_token, decrypt_token, hx]
  · simp [decrypt_token, hk]

/-- Witness for C5 at key 0 and plaintext `ghp-secret`. -/
theorem credential_vault_roundtrip_witness :
    decrypt_token 0 (encrypt_token 0 "ghp-secret") = "ghp-secret" ∧
    decrypt_token 0 (Sealed.cipher 1 "ghp-secret") = "" :=
  ⟨(credential_vault_roundtrip 0 "ghp-secret" (by decide)).1,
   (credential_vault_roundtrip 0 "ghp-secret" (by decide)).2.2.2 1 "ghp-secret"
     (by decide)⟩

/-- C9: on every request the NoAuth strategy returns a user with
`is_admin = true`, `is_active = true`, the stable id 1 and the fixed
username `single_user`; `requires_auth` is false and the login URL is
none. The absence of any User Directory operation is structural:
`noAuthAuthenticate` takes no database at all. -/
theorem no_auth_virtual_admin : ∀ (req : Request) (now : Nat),
    (∃ u, noAuthAuthenticate req now = some u ∧ u.is_admin = true ∧
      u.is_active = true ∧ u.id = 1 ∧ u.username = "single_user") ∧
    noAuthRequiresAuth = false ∧ noAuthGetLoginUrl = none := by
  intro req now
  exact ⟨⟨_, rfl, rfl, rfl, rfl, rfl⟩, rfl, rfl⟩

/-- C8: strategy selection is the pure mode function — single-user with
auth disabled picks NoAuth, single-user with auth enabled picks
SingleAllowedUser, multi-user picks MultiUser, and any other mode value
raises the fatal configuration `ValueError`. -/
theorem strategy_selection_cases (m : String) (b : Bool)
    (hm1 : m ≠ "single_user") (hm2 : m ≠ "multi_user") :
    get_auth_strategy "single_user" false = Except.ok StrategyKind.noAuth ∧
    get_auth_strategy "single_user" true = Except.ok StrategyKind.githubSU ∧
    (∀ b2, get_auth_strategy "multi_user" b2 = Except.ok StrategyKind.githubMU) ∧
    get_auth_strategy m b = Except.error ("Unknown app mode: " ++ m) := by
  refine ⟨rfl, rfl, fun b2 => rfl, ?_⟩
  simp [get_auth_strategy, hm1, hm2]

/-- Witness for C8 at the unknown mode string `demo`. -/
theorem strategy_selection_cases_witness :
    get_auth_strategy "demo" true = Except.error ("Unknown app mode: " ++ "demo") :=
  (strategy_selection_cases "demo" true (by decide) (by decide)).2.2.2

/-- C6 (code bug): single-user mode with auth enabled and both OAuth
client credentials absent is a configuration that requires
authentication, yet `Settings` validation accepts it — the
`validate_github_oauth` validator runs while `enable_su_auth` is not yet
validated, so `info.data.get('enable_su_auth', False)` is always False
there and the required-credentials check never fires for this case. -/
theorem settings_su_auth_missing_oauth_accepted :
    cfgSuAuthNoOauth.requiresAuth = true ∧
    cfgSuAuthNoOauth.github_client_id = none ∧
    cfgSuAuthNoOauth.github_client_secret = none ∧
    validateSettings cfgSuAuthNoOauth = Except.ok cfgSuAuthNoOauth := by
  refine ⟨by decide, rfl, rfl, by rfl⟩

/-- C7 counterexample: the session token issued after the OAuth callback
carries the GitHub access token itself (credential material) among its
claims and has no issued-at claim, contradicting the claimed exact claim
set {subject, external-id, issued-at, expiry, token-kind}. -/
theorem oauth_token_claims_cex :
    dictGet (jwtPayload (create_github_oauth_token ghUserAlice
      "gh-access-token" "k" 100 30)) "github_token"
        = some (JValue.s "gh-access-token") ∧
    dictGet (jwtPayload (create_github_oauth_token ghUserAlice
      "gh-access-token" "k" 100 30)) "iat" = none := by
  constructor <;> decide

/-- C7 amended: every session token issued after a successful OAuth
callback encodes exactly subject, github id, email, avatar URL, the
GitHub access token, the token kind `github_oauth`, and the expiry
(default ttl); there is no issued-at claim. -/
theorem oauth_token_claims_exact (u : GitHubUserData) (tok key : String)
    (now defm : Nat) :
    create_github_oauth_token u tok key now defm =
      Jwt.signed
        [("sub", JValue.s u.login), ("github_id", JValue.i u.id),
         ("email", optJ u.email), ("avatar_url", optJ u.avatar_url),
         ("github_token", JValue.s tok), ("type", JValue.s "github_oauth"),
         ("exp", JValue.i ((now + defm * 60 : Nat) : Int))] key := by
  rfl

/-- C1 (code bug): in single-user mode with auth enabled, a validly
signed session token for a subject other than the allowed username makes
the strategy body raise the Forbidden 403, but the strategy's bare
`except Exception: return None` swallows it, so `authenticate` yields
"no user" (hence 401 at the guard) instead of propagating the 403. -/
theorem su_forbidden_swallowed_bug :
    suAuthenticateInner cfgSuAuth wireMallory [] reqBearer 0 =
      Except.error (HttpError.http 403 "Access denied. Only alice is allowed.") ∧
    suAuthenticate cfgSuAuth wireMallory [] reqBearer 0 = (none, []) := by
  exact ⟨rfl, rfl⟩

/-- C4: decoding a token produced by `create_access_token` under the same
key returns the input claims unchanged except for the added `exp` claim
when decoded before the ttl elapses; decoding at or after expiry fails;
decoding under a different key (bad signature) fails; decoding a
malformed token fails. The external JWT library's validation is modelled
per the spec (fails once `now >= exp`). -/
theorem token_codec_roundtrip (data : Claims) (d : Nat) (key : String)
    (now defm : Nat) (hd : 0 < d) :
    (∀ now2, now2 < now + d →
      ∃ p, decode_access_token (create_access_token data (some d) key now defm)
          key now2 = some p ∧
        dictGet p "exp" = some (JValue.i ((now + d : Nat) : Int)) ∧
        ∀ k, k ≠ "exp" → dictGet p k = dictGet data k) ∧
    (∀ now2, now + d ≤ now2 →
      decode_access_token (create_access_token data (some d) key now defm)
        key now2 = none) ∧
    (∀ key2 now2, key2 ≠ key →
      decode_access_token (create_access_token data (some d) key now defm)
        key2 now2 = none) ∧
    (∀ raw now2, decode_access_token (Jwt.malformed raw) key now2 = none) := by
  have hne : d ≠ 0 := Nat.pos_iff_ne_zero.mp hd
  have hEnc : create_access_token data (some d) key now defm =
      Jwt.signed (dictSet data "exp" (JValue.i ((now + d : Nat) : Int))) key := by
    simp [create_access_token, hne]
  refine ⟨?_, ?_, ?_, fun raw now2 => rfl⟩
  · intro now2 h2
    refine ⟨dictSet data "exp" (JValue.i ((now + d : Nat) : Int)), ?_,
      dictGet_dictSet_self _ _ _, fun k hk => dictGet_dictSet_ne _ _ _ _ hk⟩
    have hlt : ¬ (((now + d : Nat) : Int) ≤ ((now2 : Nat) : Int)) := by
      exact_mod_cast Nat.not_le.mpr h2
    rw [hEnc]
    simp only [decode_access_token, jwtDecode, dictGet_dictSet_self, if_pos rfl]
    rw [if_neg hlt]
    simp
  · intro now2 h2
    have hle : ((now + d : Nat) : Int) ≤ ((now2 : Nat) : Int) := by
      exact_mod_cast h2
    rw [hEnc]
    simp only [decode_access_token, jwtDecode, dictGet_dictSet_self, if_pos rfl]
    rw [if_pos hle]
    simp
  · intro key2 now2 hk
    rw [hEnc]
    simp [decode_access_token, jwtDecode, Ne.symm hk]

/-- Witness for C4: claims `{sub: alice}`, ttl 60 issued at 0 decode back
(with `exp = 60` added) at time 10 and fail at time 60. -/
theorem token_codec_roundtrip_witness :
    decode_access_token
      (create_access_token [("sub", JValue.s "alice")] (some 60) "k" 0 30) "k" 10
        = some [("sub", JValue.s "alice"), ("exp", JValue.i 60)] ∧
    decode_access_token
      (create_access_token [("sub", JValue.s "alice")] (some 60) "k" 0 30) "k" 60
        = none := by
  have h := token_codec_roundtrip [("sub", JValue.s "alice")] 60 "k" 0 30 (by decide)
  exact ⟨by rfl, h.2.1 60 (by decide)⟩

/-- C3: in multi-user mode, a request whose validly signed token resolves
to an existing user record with `is_active = false` makes `authenticate`
fail with the Forbidden 403 (account deactivated), and the strategy's
`except HTTPException: raise` propagates it to the caller instead of
turning it into "no user". -/
theorem mu_deactivated_forbidden_propagates
    (cfg : Settings) (wire : String → Jwt) (db : List UserRec)
    (req : Request) (now : Nat) (tokenStr : String) (payload : Claims)
    (uname : String) (u : UserRec)
    (hTok : extractToken req = some tokenStr)
    (hDecode : decode_access_token (wire tokenStr) cfg.secret_key now = some payload)
    (hSub : dictGet payload "sub" = some (JValue.s uname))
    (hNe : uname ≠ "")
    (hFind : db.find? (fun x => jvEqOptStr (JValue.s uname) x.github_username) = some u)
    (hInactive : u.is_active = false) :
    muAuthenticate cfg wire db req now =
      Except.error (HttpError.http 403 "Account is deactivated. Contact administrator.") := by
  have hTruthy : jvTruthy (JValue.s uname) = true := by
    simp [jvTruthy, hNe]
  unfold muAuthenticate muAuthenticateInner
  simp only [hTok, hDecode, hSub]
  simp [hTruthy, hFind, hInactive]

/-- Witness for C3: deactivated `bob` presents a validly signed token in
multi-user mode and gets the 403. -/
theorem mu_deactivated_forbidden_witness :
    muAuthenticate cfgMu wireBob [userBobInactive] reqBearer 0 =
      Except.error (HttpError.http 403 "Account is deactivated. Contact administrator.") :=
  mu_deactivated_forbidden_propagates cfgMu wireBob [userBobInactive] reqBearer 0
    "sess-token" [("sub", JValue.s "bob"), ("exp", JValue.i 1000)] "bob"
    userBobInactive (by rfl) (by rfl) (by rfl) (by decide) (by rfl) (by rfl)

/-- C2 counterexample: an authenticated user whose stored credential
decrypts to the empty string (corrupted ciphertext) does NOT make the
resolver fall through to the `X-GitHub-Token` header — the resolver
returns the empty decryption itself, not the header value. -/
theorem resolver_empty_decrypt_no_fallthrough_cex :
    get_github_token cfgMu 0 reqHeaderTok (some userGarbageTok) = some "" ∧
    reqHeaderTok.x_github_token = some "hdr-tok" ∧
    get_github_token cfgMu 0 reqHeaderTok (some userGarbageTok) ≠ some "hdr-tok" := by
  refine ⟨rfl, rfl, ?_⟩
  intro h
  simp [get_github_token, cfgMu, reqHeaderTok, userGarbageTok, suDefaultBranch,
    sealedTruthy, decrypt_token, optStrTruthy] at h

/-- C2 amended: the credential resolver returns the first match of:
(1) single-user mode with auth disabled and a truthy configured default
token — the default token; (2) else, an authenticated user with a truthy
stored encrypted token — its decryption, returned even when the
decryption result is empty (no fall-through; downstream consumers treat
the empty string as "no usable credential"); (3) else a non-empty
`X-GitHub-Token` header — its value; (4) otherwise none. -/
theorem resolver_precedence_amended (cfg : Settings) (fkey : Nat) (req : Request) :
    (∀ cu, suDefaultBranch cfg = true →
      get_github_token cfg fkey req cu = cfg.default_github_token) ∧
    (∀ u c, suDefaultBranch cfg = false → u.github_token = some c →
      sealedTruthy c = true →
      get_github_token cfg fkey req (some u) = some (decrypt_token fkey c)) ∧
    (∀ cu h, suDefaultBranch cfg = false → userTokenTruthy cu = false →
      req.x_github_token = some h → h ≠ "" →
      get_github_token cfg fkey req cu = some h) ∧
    (∀ cu, suDefaultBranch cfg = false → userTokenTruthy cu = false →
      (req.x_github_token = none ∨ req.x_github_token = some "") →
      get_github_token cfg fkey req cu = none) := by
  have hHeader : ∀ h2, req.x_github_token = some h2 → h2 ≠ "" →
      headerToken req = some h2 := by
    intro h2 hh hne
    simp [headerToken, hh, hne]
  have hTail : ∀ cu, userTokenTruthy cu = false →
      (match cu with
        | some u =>
          match u.github_token with
          | some c =>
            if sealedTruthy c then some (decrypt_token fkey c)
            else headerToken req
          | none => headerToken req
        | none => headerToken req) = headerToken req := by
    intro cu hu
    rcases cu with _ | u
    · rfl
    · rcases hgt : u.github_token with _ | c
      · simp [hgt]
      · simp only [userTokenTruthy, hgt] at hu
        simp [hgt, hu]
  refine ⟨?_, ?_, ?_, ?_⟩
  · intro cu hb
    simp [get_github_token, hb]
  · intro u c hb hc hs
    simp [get_github_token, hb, hc, hs]
  · intro cu h2 hb hu hh hne
    unfold get_github_token
    rw [if_neg (by simp [hb])]
    rw [hTail cu hu, hHeader h2 hh hne]
  · intro cu hb hu hOr
    unfold get_github_token
    rw [if_neg (by simp [hb])]
    rw [hTail cu hu]
    rcases hOr with hh | hh <;> simp [headerToken, hh]

/-- Witness for C2: with the default-token branch off, a stored user
credential wins over a present header, and with no user credential the
header wins. -/
theorem resolver_precedence_amended_witness :
    get_github_token cfgMu 0 reqHeaderTok (some userStoredTok) = some "stored-tok" ∧
    get_github_token cfgMu 0 reqHeaderTok none = some "hdr-tok" := by
  have h := resolver_precedence_amended cfgMu 0 reqHeaderTok
  constructor
  · rw [h.2.1 userStoredTok (Sealed.cipher 0 "stored-tok") (by decide) (by rfl)
      (by decide)]
    rfl
  · exact h.2.2.1 none "hdr-tok" (by decide) (by decide) (by rfl) (by decide)

/-- C10: an admin targeting their own account cannot deactivate it nor
remove its admin flag — both endpoints fail with the 400 error and leave
the database (hence the user record) unchanged. -/
theorem self_demotion_blocked (uid : Nat) (cu : UserRec) (db : List UserRec)
    (now : Nat) (_hAdmin : cu.is_admin = true) (hSelf : cu.id = uid) :
    deactivate_user uid cu db now =
      (Except.error (HttpError.http 400 "Cannot deactivate your own account"), db) ∧
    remove_admin uid cu db now =
      (Except.error (HttpError.http 400
        "Cannot remove admin privileges from your own account"), db) := by
  constructor <;> simp [deactivate_user, remove_admin, hSelf]

/-- Witness for C10: admin `root` (id 5) targets id 5. -/
theorem self_demotion_blocked_witness :
    deactivate_user 5 adminSelf [adminSelf] 0 =
      (Except.error (HttpError.http 400 "Cannot deactivate your own account"),
        [adminSelf]) ∧
    remove_admin 5 adminSelf [adminSelf] 0 =
      (Except.error (HttpError.http 400
        "Cannot remove admin privileges from your own account"), [adminSelf]) :=
  self_demotion_blocked 5 adminSelf [adminSelf] 0 (by rfl) (by rfl)
